import Mathlib

/-!
Verification of the GPU texture / resource synchronization layer of the
skyline emulator against its natural-language specification.

The definitions below are a shallow embedding of
`app/src/main/cpp/skyline/gpu/texture/texture.h` and of the
`GraphicsContext` source file. Machine integers (`u8`/`u16`/`u32`) are
embedded as `Nat`; Vulkan enumeration values and handles are embedded as
`Nat` codes or as dedicated inductive types where the source enumerates
them. Bodies that live in translation units outside the provided sources
(for example `texture.cpp` and `util::DivideCeil`) are modelled from the
specification and marked as such in their doc comments.
-/

namespace skyline

/-- Embeds vk::ComponentMapping: four component-swizzle slots, each an
enumeration value embedded as a `Nat` code. -/
structure ComponentMapping where
  r : Nat
  g : Nat
  b : Nat
  a : Nat
deriving DecidableEq

/-- Embeds vk::ImageType as returned by texture::Dimensions::GetType. -/
inductive ImageType where
  | e1D
  | e2D
  | e3D
deriving DecidableEq

/-- Embeds texture::Dimensions: width, height and depth of a texture (u32). -/
structure Dimensions where
  width : Nat
  height : Nat
  depth : Nat
deriving DecidableEq

/-- Embeds texture::Dimensions::GetType: 3D when depth > 1, else 2D when
height > 1, else 1D. -/
def Dimensions.GetType (d : Dimensions) : ImageType :=
  if 1 < d.depth then ImageType.e3D
  else if 1 < d.height then ImageType.e2D
  else ImageType.e1D

/-- Modelled from the spec: util::DivideCeil is declared in a utility header
that is not among the provided sources; it is the standard ceiling-division
idiom on unsigned integers, dividing after adding divisor - 1. The claim
asserts this computes the exact ceiling, which is proved below. -/
def divideCeil (n d : Nat) : Nat :=
  (n + d - 1) / d

/-- Specification-side exact ceiling of n / d (for d > 0): the quotient
rounded up, written without the implementation idiom. -/
def exactCeilDiv (n d : Nat) : Nat :=
  n / d + if n % d = 0 then 0 else 1

/-- Embeds texture::FormatBase: bytes-per-block, the Vulkan format code,
aspect bits, block dimensions, swizzle mapping and the stencil-first flag. -/
structure FormatBase where
  bpb : Nat
  vkFormat : Nat
  vkAspect : Nat
  blockHeight : Nat
  blockWidth : Nat
  swizzleMapping : ComponentMapping
  stencilFirst : Bool
deriving DecidableEq

/-- Embeds texture::FormatBase::IsCompressed: a format is compressed iff a
block spans more than one pixel in either direction. -/
def FormatBase.IsCompressed (f : FormatBase) : Bool :=
  decide (f.blockHeight ≠ 1) || decide (f.blockWidth ≠ 1)

/-- Embeds texture::FormatBase::GetSize: size in bytes computed as
DivideCeil(width, blockWidth) * DivideCeil(height, blockHeight) * bpb * depth. -/
def FormatBase.GetSize (f : FormatBase) (width height depth : Nat) : Nat :=
  divideCeil width f.blockWidth * divideCeil height f.blockHeight * f.bpb * depth

/-- Embeds texture::FormatBase::operator==: two format bases compare equal
iff their Vulkan format codes are equal (no other field participates). -/
def FormatBase.beq (a b : FormatBase) : Bool :=
  decide (a.vkFormat = b.vkFormat)

/-- Embeds texture::Format: a nullable wrapper around format metadata; the
null pointer is embedded as `none`. -/
structure Format where
  base : Option FormatBase
deriving DecidableEq

/-- Embeds texture::Format::operator==: when both sides are non-null the
pointees are compared with FormatBase::operator==, otherwise the pointers
themselves are compared (equal only when both are null). -/
def Format.beq (a b : Format) : Bool :=
  match a.base, b.base with
  | some x, some y => FormatBase.beq x y
  | none, none => true
  | none, some _ => false
  | some _, none => false

/-- Embeds texture::TileMode: the memory layout of a guest texture. -/
inductive TileMode where
  | Linear
  | Pitch
  | Block
deriving DecidableEq

/-- Embeds texture::TileConfig. In the source `blockHeight`/`blockDepth`
overlay `pitch` in an anonymous union; the embedding carries all three
fields explicitly since only the fields selected by `mode` are ever read
(by operator== below and by the decoders). -/
structure TileConfig where
  mode : TileMode
  blockHeight : Nat
  blockDepth : Nat
  pitch : Nat
deriving DecidableEq

/-- Embeds texture::TileConfig::operator==: modes must match; Linear
configurations compare equal unconditionally, Pitch compares the pitch and
Block compares the block height and depth. -/
def TileConfig.beq (a b : TileConfig) : Bool :=
  if a.mode = b.mode then
    match a.mode with
    | TileMode.Linear => true
    | TileMode.Pitch => decide (a.pitch = b.pitch)
    | TileMode.Block => decide (a.blockHeight = b.blockHeight) && decide (a.blockDepth = b.blockDepth)
  else false

/-- Embeds texture::TextureType (equal to the Vulkan image-view types). -/
inductive TextureType where
  | e1D
  | e2D
  | e3D
  | eCube
  | e1DArray
  | e2DArray
  | eCubeArray
deriving DecidableEq

/-- Embeds span of u8: one contiguous host-visible memory span, identified
by its base address and size. -/
structure Span where
  addr : Nat
  size : Nat
deriving DecidableEq

/-- Embeds GuestTexture: the descriptor for a texture resident in guest
memory, used as the content-addressed cache key. `swizzle` and `aspect`
are derived fields set from the format by the constructors. -/
structure GuestTexture where
  mappings : List Span
  dimensions : Dimensions
  format : Format
  tileConfig : TileConfig
  type : TextureType
  baseArrayLayer : Nat
  layerCount : Nat
  layerStride : Nat
  swizzle : ComponentMapping
  aspect : Nat
deriving DecidableEq

/-- Modelled from the spec: TextureManager::FindOrCreate and its descriptor
comparison live in a translation unit that is not among the provided
sources; the spec states that two descriptors are cache-equal iff all
fields compare equal, each field compared with its own equality operator
(embedded above from the source for Format and TileConfig). -/
def GuestTexture.cacheEq (a b : GuestTexture) : Bool :=
  decide (a.mappings = b.mappings) &&
  decide (a.dimensions = b.dimensions) &&
  Format.beq a.format b.format &&
  TileConfig.beq a.tileConfig b.tileConfig &&
  decide (a.type = b.type) &&
  decide (a.baseArrayLayer = b.baseArrayLayer) &&
  decide (a.layerCount = b.layerCount) &&
  decide (a.layerStride = b.layerStride)

lemma formatBeq_iff (a b : Format) :
    Format.beq a b = true ↔
      ((a.base = none ∧ b.base = none) ∨
        ∃ x y, a.base = some x ∧ b.base = some y ∧ x.vkFormat = y.vkFormat) := by
  cases ha : a.base <;> cases hb : b.base <;>
    simp [Format.beq, FormatBase.beq, ha, hb]

lemma tileConfigBeq_iff (a b : TileConfig) :
    TileConfig.beq a b = true ↔
      (a.mode = b.mode ∧
        (a.mode = TileMode.Pitch → a.pitch = b.pitch) ∧
        (a.mode = TileMode.Block →
          a.blockHeight = b.blockHeight ∧ a.blockDepth = b.blockDepth)) := by
  by_cases hm : a.mode = b.mode
  · cases hmode : a.mode <;>
      simp [TileConfig.beq, hm, hmode, hm ▸ hmode]
  · simp [TileConfig.beq, hm]

lemma divideCeil_eq_exact (n d : Nat) (hd : 0 < d) :
    divideCeil n d = exactCeilDiv n d := by
  have hmod := Nat.mod_lt n hd
  have hdm := Nat.div_add_mod n d
  by_cases hr : n % d = 0
  · have hn : n + d - 1 = d * (n / d) + (d - 1) := by omega
    rw [divideCeil, hn, Nat.mul_add_div hd,
      Nat.div_eq_of_lt (by omega : d - 1 < d), exactCeilDiv, if_pos hr]
  · have hmul : d * (n / d + 1) = d * (n / d) + d := by ring
    have hn : n + d - 1 = d * (n / d + 1) + (n % d - 1) := by omega
    rw [divideCeil, hn, Nat.mul_add_div hd,
      Nat.div_eq_of_lt (by omega : n % d - 1 < d), exactCeilDiv, if_neg hr]

lemma divideCeil_one (n : Nat) : divideCeil n 1 = n := by
  simp [divideCeil]

/-- C9: Dimensions::GetType classifies shape by depth then height only,
never consulting width: it returns 3D iff depth > 1, otherwise 2D iff
height > 1, otherwise 1D; (w,1,1) is 1D for every w and the degenerate
value (0,2,1) is still classified 2D. -/
theorem getType_classification (d : Dimensions) :
    (d.GetType = ImageType.e3D ↔ 1 < d.depth) ∧
    (d.GetType = ImageType.e2D ↔ (¬ 1 < d.depth ∧ 1 < d.height)) ∧
    (d.GetType = ImageType.e1D ↔ (¬ 1 < d.depth ∧ ¬ 1 < d.height)) ∧
    (∀ w : Nat, Dimensions.GetType { d with width := w } = d.GetType) ∧
    (∀ w : Nat, Dimensions.GetType ⟨w, 1, 1⟩ = ImageType.e1D) ∧
    Dimensions.GetType ⟨0, 2, 1⟩ = ImageType.e2D := by
  refine ⟨?_, ?_, ?_, ?_, ?_, ?_⟩ <;>
    first
      | (intro w; simp [Dimensions.GetType])
      | (by_cases h3 : 1 < d.depth <;> by_cases h2 : 1 < d.height <;>
          simp [Dimensions.GetType, h3, h2])

/-- C10: FormatBase::GetSize computes the byte size exactly as
ceil(width / blockWidth) * ceil(height / blockHeight) * bytesPerBlock *
depth in exact integer arithmetic; for an uncompressed format the block
divisions vanish, and for a 4-byte-per-element uncompressed format at
dimensions 64x64x1 the size is 16384 bytes. -/
theorem getSize_exact (f : FormatBase) (w h d : Nat)
    (hbw : 0 < f.blockWidth) (hbh : 0 < f.blockHeight) :
    f.GetSize w h d =
      exactCeilDiv w f.blockWidth * exactCeilDiv h f.blockHeight * f.bpb * d ∧
    (f.IsCompressed = false → f.GetSize w h d = w * h * f.bpb * d) ∧
    (f.bpb = 4 → f.blockWidth = 1 → f.blockHeight = 1 →
      f.GetSize 64 64 1 = 16384) := by
  refine ⟨?_, ?_, ?_⟩
  · rw [FormatBase.GetSize, divideCeil_eq_exact w _ hbw, divideCeil_eq_exact h _ hbh]
  · intro hcomp
    have hbh1 : f.blockHeight = 1 := by
      by_contra hne
      simp [FormatBase.IsCompressed, hne] at hcomp
    have hbw1 : f.blockWidth = 1 := by
      by_contra hne
      simp [FormatBase.IsCompressed, hne] at hcomp
    rw [FormatBase.GetSize, hbh1, hbw1, divideCeil_one, divideCeil_one]
  · intro hb h1 h2
    rw [FormatBase.GetSize, h1, h2, hb]
    decide

/-- Witness for C10 at a concrete uncompressed 4-byte format and 64x64x1. -/
theorem getSize_exact_witness :
    FormatBase.GetSize ⟨4, 37, 1, 1, 1, ⟨0, 1, 2, 3⟩, false⟩ 64 64 1 = 16384 :=
  (getSize_exact ⟨4, 37, 1, 1, 1, ⟨0, 1, 2, 3⟩, false⟩ 64 64 1
    (by decide) (by decide)).2.2 rfl rfl rfl

/-- C4: descriptor cache-equality is structural and complete: two
GuestTexture cache keys are cache-equal iff every field compares equal
under its own comparison operator (mappings, dimensions, format by
nullability and Vulkan format code, tile configuration by mode and the
mode-selected union members, type, base layer, layer count, layer
stride); in particular any descriptor is cache-equal to one with
identical field values, identity playing no role. -/
theorem cacheEq_structural :
    (∀ a : GuestTexture, a.cacheEq a = true) ∧
    (∀ a b : GuestTexture, a.cacheEq b = true ↔
      (a.mappings = b.mappings ∧
       a.dimensions = b.dimensions ∧
       ((a.format.base = none ∧ b.format.base = none) ∨
         ∃ x y, a.format.base = some x ∧ b.format.base = some y ∧
           x.vkFormat = y.vkFormat) ∧
       (a.tileConfig.mode = b.tileConfig.mode ∧
         (a.tileConfig.mode = TileMode.Pitch →
           a.tileConfig.pitch = b.tileConfig.pitch) ∧
         (a.tileConfig.mode = TileMode.Block →
           a.tileConfig.blockHeight = b.tileConfig.blockHeight ∧
           a.tileConfig.blockDepth = b.tileConfig.blockDepth)) ∧
       a.type = b.type ∧
       a.baseArrayLayer = b.baseArrayLayer ∧
       a.layerCount = b.layerCount ∧
       a.layerStride = b.layerStride)) := by
  have hmain : ∀ a b : GuestTexture, a.cacheEq b = true ↔
      (a.mappings = b.mappings ∧
       a.dimensions = b.dimensions ∧
       ((a.format.base = none ∧ b.format.base = none) ∨
         ∃ x y, a.format.base = some x ∧ b.format.base = some y ∧
           x.vkFormat = y.vkFormat) ∧
       (a.tileConfig.mode = b.tileConfig.mode ∧
         (a.tileConfig.mode = TileMode.Pitch →
           a.tileConfig.pitch = b.tileConfig.pitch) ∧
         (a.tileConfig.mode = TileMode.Block →
           a.tileConfig.blockHeight = b.tileConfig.blockHeight ∧
           a.tileConfig.blockDepth = b.tileConfig.blockDepth)) ∧
       a.type = b.type ∧
       a.baseArrayLayer = b.baseArrayLayer ∧
       a.layerCount = b.layerCount ∧
       a.layerStride = b.layerStride) := by
    intro a b
    rw [GuestTexture.cacheEq]
    simp only [Bool.and_eq_true, decide_eq_true_eq,
      formatBeq_iff, tileConfigBeq_iff]
    tauto
  refine ⟨fun a => ?_, hmain⟩
  rw [hmain a a]
  refine ⟨rfl, rfl, ?_, ⟨rfl, fun _ => rfl, fun _ => ⟨rfl, rfl⟩⟩,
    rfl, rfl, rfl, rfl⟩
  cases h : a.format.base with
  | none => exact Or.inl ⟨rfl, rfl⟩
  | some x => exact Or.inr ⟨x, x, rfl, rfl, rfl⟩

/-- Embeds vk::ImageSubresourceRange: aspect bits, mip level range and
array layer range of a view. -/
structure ImageSubresourceRange where
  aspectMask : Nat
  baseMipLevel : Nat
  levelCount : Nat
  baseArrayLayer : Nat
  layerCount : Nat
deriving DecidableEq

/-- Embeds TextureView: the owning texture is a shared pointer compared by
identity, embedded as a `Nat` identifier; the remaining fields are the
view type, the (nullable) view format, the component remap and the
subresource range. -/
structure TextureView where
  texture : Nat
  type : TextureType
  format : Format
  mapping : ComponentMapping
  range : ImageSubresourceRange
deriving DecidableEq

/-- Embeds TextureView::operator==: compares owning texture identity, view
type, format (via texture::Format::operator==), component mapping and
subresource range. -/
def TextureView.beq (a b : TextureView) : Bool :=
  decide (a.texture = b.texture) &&
  decide (a.type = b.type) &&
  Format.beq a.format b.format &&
  decide (a.mapping = b.mapping) &&
  decide (a.range = b.range)

/-- Concrete format bases differing only in their Vulkan format code. -/
def fmtBaseA : FormatBase := ⟨4, 37, 1, 1, 1, ⟨0, 1, 2, 3⟩, false⟩

/-- Second concrete format base with a different Vulkan format code. -/
def fmtBaseB : FormatBase := ⟨4, 43, 1, 1, 1, ⟨0, 1, 2, 3⟩, false⟩

/-- Concrete view used to exhibit the role of the format field. -/
def viewA : TextureView :=
  ⟨1, TextureType.e2D, ⟨some fmtBaseA⟩, ⟨0, 1, 2, 3⟩, ⟨1, 0, 1, 0, 1⟩⟩

/-- Same view as viewA except for the format field. -/
def viewB : TextureView :=
  ⟨1, TextureType.e2D, ⟨some fmtBaseB⟩, ⟨0, 1, 2, 3⟩, ⟨1, 0, 1, 0, 1⟩⟩

/-- C5 counterexample: two views agreeing on owning texture identity,
view type, component remap and subresource range but differing in format
are not equal under TextureView::operator==, so equality is not
equivalent to the four-field match stated by the claim. -/
theorem textureView_claim_counterexample :
    ¬ (TextureView.beq viewA viewB = true ↔
      (viewA.texture = viewB.texture ∧ viewA.type = viewB.type ∧
       viewA.mapping = viewB.mapping ∧ viewA.range = viewB.range)) := by
  decide

/-- C5 amended: two TextureViews compare equal under the source
operator== iff their owning texture identity, view type, format (compared
as nullable formats by Vulkan format code), component remap and
subresource range all match. -/
theorem textureView_eq_iff (a b : TextureView) :
    TextureView.beq a b = true ↔
      (a.texture = b.texture ∧
       a.type = b.type ∧
       ((a.format.base = none ∧ b.format.base = none) ∨
         ∃ x y, a.format.base = some x ∧ b.format.base = some y ∧
           x.vkFormat = y.vkFormat) ∧
       a.mapping = b.mapping ∧
       a.range = b.range) := by
  rw [TextureView.beq]
  simp only [Bool.and_eq_true, decide_eq_true_eq, formatBeq_iff]
  tauto

/-- Embeds Texture::DirtyState: Clean (CPU mappings in sync with the GPU
texture), CpuDirty (CPU mappings modified, GPU texture stale — the spec
name is HostPendingUpload) and GpuDirty (GPU texture modified, CPU
mappings stale — the spec name is DevicePendingReadback). -/
inductive DirtyState where
  | Clean
  | CpuDirty
  | GpuDirty
deriving DecidableEq

/-- Embeds the Texture class state relevant to the claims: the nullable
Vulkan backing (the vk::Image handle embedded as a `Nat` code), the dirty
state, the optional guest descriptor and the public metadata fields.
The mutex, condition variable, mirror spans, trap handle, fence cycle and
weak view list are concurrency or memory artifacts not carried here. -/
structure Texture where
  backing : Option Nat
  dirtyState : DirtyState
  guest : Option GuestTexture
  dimensions : Dimensions
  format : Format
  layout : Nat
  tiling : Nat
  mipLevels : Nat
  layerCount : Nat
  sampleCount : Nat
deriving DecidableEq

/-- Modelled from the spec: the body of Texture::Texture(GPU&,
GuestTexture) is in texture.cpp, which is not among the provided sources;
the header's member initializer dirtyState(DirtyState::CpuDirty) is in the
provided header and the spec states a fresh Resource starts in
HostPendingUpload with a backing that may not yet be realized, taking its
metadata from the descriptor. -/
def Texture.fromGuest (g : GuestTexture) : Texture where
  backing := none
  dirtyState := DirtyState.CpuDirty
  guest := some g
  dimensions := g.dimensions
  format := g.format
  layout := 0
  tiling := 0
  mipLevels := 1
  layerCount := g.layerCount
  sampleCount := 1

/-- Modelled from the spec: TextureManager::FindOrCreate is not among the
provided sources; it looks up an entry whose stored descriptor is
cache-equal to the requested one and on a miss constructs a new Texture
from the descriptor and inserts it keyed by the descriptor. -/
def findOrCreate (cache : List (GuestTexture × Texture)) (g : GuestTexture) :
    List (GuestTexture × Texture) × Texture :=
  match cache.find? (fun e => GuestTexture.cacheEq e.fst g) with
  | some e => (cache, e.snd)
  | none =>
    let t := Texture.fromGuest g
    (cache ++ [(g, t)], t)

/-- C1: every newly created guest-backed Texture starts in dirty state
CpuDirty (HostPendingUpload): the Texture constructed from a descriptor
has dirty state CpuDirty immediately after construction, and on a cache
miss FindOrCreate returns a Texture whose dirty state is CpuDirty, before
any synchronization call has run. -/
theorem texture_initial_state (g : GuestTexture)
    (cache : List (GuestTexture × Texture))
    (hmiss : ∀ e ∈ cache, GuestTexture.cacheEq e.fst g = false) :
    (Texture.fromGuest g).dirtyState = DirtyState.CpuDirty ∧
    (findOrCreate cache g).snd.dirtyState = DirtyState.CpuDirty := by
  have hfind : cache.find? (fun e => GuestTexture.cacheEq e.fst g) = none := by
    rw [List.find?_eq_none]
    intro e he
    simp [hmiss e he]
  refine ⟨rfl, ?_⟩
  rw [findOrCreate, hfind]
  rfl

/-- Concrete guest texture descriptor used by witnesses. -/
def guestTex0 : GuestTexture where
  mappings := [⟨4096, 16384⟩]
  dimensions := ⟨64, 64, 1⟩
  format := ⟨some fmtBaseA⟩
  tileConfig := ⟨TileMode.Linear, 0, 0, 0⟩
  type := TextureType.e2D
  baseArrayLayer := 0
  layerCount := 1
  layerStride := 0
  swizzle := ⟨0, 1, 2, 3⟩
  aspect := 1

/-- Witness for C1 at a concrete descriptor against the empty cache. -/
theorem texture_initial_state_witness :
    (Texture.fromGuest guestTex0).dirtyState = DirtyState.CpuDirty ∧
    (findOrCreate [] guestTex0).snd.dirtyState = DirtyState.CpuDirty :=
  texture_initial_state guestTex0 [] (by simp)

/-- Error raised by the dirty-state machine on a caller-discipline
violation. -/
inductive CallerError where
  | markDirtyWhileCpuDirty
deriving DecidableEq

/-- Modelled from the spec: the body of Texture::MarkGpuDirty is in
texture.cpp, which is not among the provided sources; per the spec it
transitions Clean to GpuDirty, is a no-op while already GpuDirty, and
calling it while CpuDirty is a caller error that is rejected rather than
silently changing the state. -/
def markGpuDirty : DirtyState → Except CallerError DirtyState
  | DirtyState.Clean => Except.ok DirtyState.GpuDirty
  | DirtyState.GpuDirty => Except.ok DirtyState.GpuDirty
  | DirtyState.CpuDirty => Except.error CallerError.markDirtyWhileCpuDirty

/-- Modelled from the spec: the body of Texture::SynchronizeHost is in
texture.cpp, which is not among the provided sources; per the spec, when
the state is CpuDirty the guest data is copied into the host backing and
the state becomes Clean, otherwise nothing happens. The rwTrap flag only
selects read/write over write-only trapping and does not change the
resulting state. -/
def synchronizeHost (_rwTrap : Bool) : DirtyState → DirtyState
  | DirtyState.CpuDirty => DirtyState.Clean
  | s => s

/-- Modelled from the spec: the body of Texture::SynchronizeGuest is in
texture.cpp, which is not among the provided sources; per the spec, when
the state is GpuDirty the host data is copied back to the guest and the
state becomes Clean, or CpuDirty when skipTrap is set (no trap means
future divergence cannot be observed); otherwise nothing happens. -/
def synchronizeGuest (skipTrap : Bool) : DirtyState → DirtyState
  | DirtyState.GpuDirty =>
    if skipTrap then DirtyState.CpuDirty else DirtyState.Clean
  | s => s

/-- One state-machine operation on a Texture. -/
inductive Op where
  | syncHost (rwTrap : Bool)
  | syncGuest (skipTrap : Bool)
  | markDirty
deriving DecidableEq

/-- The dirty state after one operation; a rejected MarkGpuDirty leaves
the state unchanged. -/
def Op.step : Op → DirtyState → DirtyState
  | Op.syncHost rwTrap, s => synchronizeHost rwTrap s
  | Op.syncGuest skipTrap, s => synchronizeGuest skipTrap s
  | Op.markDirty, s =>
    match markGpuDirty s with
    | Except.ok t => t
    | Except.error _ => s

/-- Whether an operation respects its stated precondition in the given
state: MarkGpuDirty must not be called while CpuDirty. -/
def Op.ok : Op → DirtyState → Bool
  | Op.markDirty, s => decide (s ≠ DirtyState.CpuDirty)
  | _, _ => true

/-- Runs a sequence of operations from a starting dirty state. -/
def runOps : DirtyState → List Op → DirtyState
  | s, [] => s
  | s, op :: ops => runOps (op.step s) ops

/-- Whether every operation of the sequence respects its precondition at
the state it executes in. -/
def validSeq : DirtyState → List Op → Bool
  | _, [] => true
  | s, op :: ops => op.ok s && validSeq (op.step s) ops

/-- The dirty state after the first n operations of the sequence. -/
def stateAt (s : DirtyState) (ops : List Op) (n : Nat) : DirtyState :=
  runOps s (ops.take n)

lemma step_into_gpuDirty (op : Op) (s : DirtyState)
    (hok : op.ok s = true) (hstep : op.step s = DirtyState.GpuDirty) :
    s = DirtyState.Clean ∨ s = DirtyState.GpuDirty := by
  cases op with
  | syncHost rwTrap =>
    cases s <;> simp_all [Op.step, synchronizeHost]
  | syncGuest skipTrap =>
    cases s <;> cases skipTrap <;> simp_all [Op.step, synchronizeGuest]
  | markDirty =>
    cases s <;> simp_all [Op.step, Op.ok, markGpuDirty]

lemma stateAt_nil (s : DirtyState) (n : Nat) : stateAt s [] n = s := by
  simp [stateAt, runOps]

lemma stateAt_cons_succ (s : DirtyState) (op : Op) (ops : List Op) (n : Nat) :
    stateAt s (op :: ops) (n + 1) = stateAt (op.step s) ops n := rfl

/-- C2: for every sequence of state-machine operations respecting the
stated preconditions, the dirty state never steps directly from CpuDirty
(HostPendingUpload) to GpuDirty (DevicePendingReadback), and every
transition into GpuDirty starts from Clean. -/
theorem no_direct_cpu_to_gpu (ops : List Op) (s : DirtyState)
    (hv : validSeq s ops = true) (n : Nat) :
    (stateAt s ops n = DirtyState.CpuDirty →
      stateAt s ops (n + 1) ≠ DirtyState.GpuDirty) ∧
    (stateAt s ops (n + 1) = DirtyState.GpuDirty →
      stateAt s ops n ≠ DirtyState.GpuDirty →
      stateAt s ops n = DirtyState.Clean) := by
  induction ops generalizing s n with
  | nil =>
    rw [stateAt_nil, stateAt_nil]
    exact ⟨fun h1 h2 => by rw [h1] at h2; exact DirtyState.noConfusion h2,
      fun h1 h2 => absurd h1 h2⟩
  | cons op ops ih =>
    rw [validSeq, Bool.and_eq_true] at hv
    cases n with
    | zero =>
      have h0 : stateAt s (op :: ops) 0 = s := rfl
      have h1 : stateAt s (op :: ops) 1 = op.step s := rfl
      rw [h0, h1]
      constructor
      · intro hcpu hgpu
        rcases step_into_gpuDirty op s hv.1 hgpu with h | h <;>
          rw [hcpu] at h <;> exact DirtyState.noConfusion h
      · intro hgpu hne
        rcases step_into_gpuDirty op s hv.1 hgpu with h | h
        · exact h
        · exact absurd h hne
    | succ m =>
      rw [stateAt_cons_succ, stateAt_cons_succ]
      exact ih (op.step s) hv.2 m

/-- Witness for C2 on the concrete valid sequence SynchronizeHost then
MarkGpuDirty started from CpuDirty, at step index 1. -/
theorem no_direct_cpu_to_gpu_witness :
    validSeq DirtyState.CpuDirty [Op.syncHost false, Op.markDirty] = true ∧
    ((stateAt DirtyState.CpuDirty [Op.syncHost false, Op.markDirty] 1 =
        DirtyState.CpuDirty →
      stateAt DirtyState.CpuDirty [Op.syncHost false, Op.markDirty] 2 ≠
        DirtyState.GpuDirty) ∧
     (stateAt DirtyState.CpuDirty [Op.syncHost false, Op.markDirty] 2 =
        DirtyState.GpuDirty →
      stateAt DirtyState.CpuDirty [Op.syncHost false, Op.markDirty] 1 ≠
        DirtyState.GpuDirty →
      stateAt DirtyState.CpuDirty [Op.syncHost false, Op.markDirty] 1 =
        DirtyState.Clean)) :=
  ⟨by decide,
    no_direct_cpu_to_gpu [Op.syncHost false, Op.markDirty]
      DirtyState.CpuDirty (by decide) 1⟩

/-- C3: MarkGpuDirty transitions Clean to GpuDirty, is a no-op while
already GpuDirty, and while CpuDirty it is rejected as a caller error
rather than silently changing the state. -/
theorem markGpuDirty_contract :
    markGpuDirty DirtyState.Clean = Except.ok DirtyState.GpuDirty ∧
    markGpuDirty DirtyState.GpuDirty = Except.ok DirtyState.GpuDirty ∧
    markGpuDirty DirtyState.CpuDirty =
      Except.error CallerError.markDirtyWhileCpuDirty := by
  exact ⟨rfl, rfl, rfl⟩

/-- Modelled from the spec: the body of Texture::SwapBacking is in
texture.cpp, which is not among the provided sources; per the spec and
the header contract it atomically replaces the host backing (and its
initial layout, eUndefined by default) and touches nothing else, with
existing Views observing the new backing through the shared Texture. -/
def Texture.swapBacking (t : Texture) (newBacking : Option Nat)
    (newLayout : Nat) : Texture :=
  { t with backing := newBacking, layout := newLayout }

/-- Pointwise update of the texture store at one texture identity. -/
def updateTexture (textures : Nat → Texture) (i : Nat) (t : Texture) :
    Nat → Texture :=
  fun j => if j = i then t else textures j

/-- Modelled from the spec: TextureView::GetView is in texture.cpp, which
is not among the provided sources; per the spec Resolve returns a view
object built against the owning Resource's current backing, transparently
reconstructed when the backing has changed, so the backing it targets is
the owning texture's current backing. -/
def TextureView.getView (textures : Nat → Texture) (v : TextureView) :
    Option Nat :=
  (textures v.texture).backing

/-- C6: after SwapBacking on the Resource owned by a View, resolving the
View returns a view targeting the new backing without re-fetching the
View from the cache, and every field of the Resource other than the
backing and its layout is unchanged by the swap. -/
theorem swapBacking_view_survival (textures : Nat → Texture)
    (v : TextureView) (newBacking : Option Nat) (newLayout : Nat) :
    let updated := updateTexture textures v.texture
      ((textures v.texture).swapBacking newBacking newLayout)
    TextureView.getView updated v = newBacking ∧
    (updated v.texture).backing = newBacking ∧
    (updated v.texture).layout = newLayout ∧
    (updated v.texture).dirtyState = (textures v.texture).dirtyState ∧
    (updated v.texture).guest = (textures v.texture).guest ∧
    (updated v.texture).dimensions = (textures v.texture).dimensions ∧
    (updated v.texture).format = (textures v.texture).format ∧
    (updated v.texture).tiling = (textures v.texture).tiling ∧
    (updated v.texture).mipLevels = (textures v.texture).mipLevels ∧
    (updated v.texture).layerCount = (textures v.texture).layerCount ∧
    (updated v.texture).sampleCount = (textures v.texture).sampleCount := by
  simp [TextureView.getView, updateTexture, Texture.swapBacking]

/-- Embeds GraphicsContext::GetVertexBuffer from the GraphicsContext
source. The vertex buffer limits are its start and end IOVAs; a cached
view is returned as-is. The result of the external address translator
(TranslateRange) is passed in as the list of spans; the code warns when
it is not exactly one span and creates the buffer over the first span
only. The returned pair is the span handed to buffer FindOrCreate and
whether the multiple-mapping warning diagnostic was logged; translation
never yields zero spans (front() requires one), embedded as `none`. -/
def getVertexBuffer (startIova endIova : Nat) (cachedView : Option Span)
    (mappings : List Span) : Option (Span × Bool) :=
  if startIova > endIova ∨ startIova = 0 ∨ endIova = 0 then none
  else
    match cachedView with
    | some v => some (v, false)
    | none =>
      match mappings with
      | [] => none
      | m :: rest => some (m, decide (rest ≠ []))

/-- Embeds GraphicsContext::GetSsboViewFromDescriptor from the
GraphicsContext source: the SSBO descriptor read from the constant
buffer is translated by the external address translator whose result is
the span list passed in; the code warns when it is not exactly one span
and creates the buffer over the first span only. -/
def getSsboViewFromDescriptor (mappings : List Span) :
    Option (Span × Bool) :=
  match mappings with
  | [] => none
  | m :: rest => some (m, decide (rest ≠ []))

/-- Whether a created buffer view over span v covers the bytes of span m. -/
def spanCovers (v m : Span) : Prop :=
  v.addr ≤ m.addr ∧ m.addr + m.size ≤ v.addr + v.size

instance (v m : Span) : Decidable (spanCovers v m) := by
  rw [spanCovers]; infer_instance

/-- Second concrete translated span, disjoint from spanA. -/
def spanB2 : Span := ⟨65536, 4096⟩

/-- First concrete translated span. -/
def spanA2 : Span := ⟨4096, 4096⟩

/-- C7 counterexample: a translation result of two spans does not make
GetVertexBuffer degrade to a path covering every returned span — the
buffer is created over the first span only, so the second span's bytes
are not covered by the created view. -/
theorem multi_mapping_claim_counterexample :
    getVertexBuffer 4096 8191 none [spanA2, spanB2] =
      some (spanA2, true) ∧
    spanB2 ∈ [spanA2, spanB2] ∧
    ¬ spanCovers spanA2 spanB2 := by
  decide

/-- C7 amended: when address translation returns more than one span, the
buffer paths (GetVertexBuffer with valid limits and no cached view, and
GetSsboViewFromDescriptor) do not fail: they log a warning diagnostic
and create the buffer over the first returned span only; no per-span
fallback covers the remaining spans. -/
theorem multi_mapping_first_span_only (startIova endIova : Nat)
    (m : Span) (rest : List Span)
    (hr : ¬ startIova > endIova) (hs : startIova ≠ 0) (he : endIova ≠ 0) :
    getVertexBuffer startIova endIova none (m :: rest) =
      some (m, decide (rest ≠ [])) ∧
    getSsboViewFromDescriptor (m :: rest) = some (m, decide (rest ≠ [])) ∧
    (rest ≠ [] → getVertexBuffer startIova endIova none (m :: rest) =
      some (m, true)) := by
  refine ⟨?_, rfl, ?_⟩
  · rw [getVertexBuffer, if_neg (by tauto)]
  · intro hrest
    rw [getVertexBuffer, if_neg (by tauto)]
    simp [hrest]

/-- Witness for C7's amended theorem on a concrete two-span translation. -/
theorem multi_mapping_first_span_only_witness :
    getVertexBuffer 4096 8191 none [spanA2, spanB2] =
      some (spanA2, true) ∧
    getSsboViewFromDescriptor [spanA2, spanB2] = some (spanA2, true) := by
  have h := multi_mapping_first_span_only 4096 8191 spanA2 [spanB2]
    (by decide) (by decide) (by decide)
  exact ⟨h.2.2 (by decide), by simpa using h.2.1⟩

/-- Host-side format constants (the format:: namespace) referenced by the
translation tables, embedded as an enumeration of their names. -/
inductive SkFormat where
  | R8Unorm
  | R8Snorm
  | R8Sint
  | R8Uint
  | R16Float
  | R16Unorm
  | R16Snorm
  | R16Sint
  | R16Uint
  | R8G8Unorm
  | R8G8Snorm
  | R8G8Sint
  | R8G8Uint
  | B5G6R5Unorm
  | B5G5R5A1Unorm
  | R32Float
  | R32Sint
  | R32Uint
  | B10G11R11Float
  | R16G16Float
  | R16G16Unorm
  | R16G16Snorm
  | R16G16Sint
  | R16G16Uint
  | R8G8B8A8Unorm
  | R8G8B8A8Srgb
  | R8G8B8A8Snorm
  | R8G8B8A8Sint
  | R8G8B8A8Uint
  | B8G8R8A8Unorm
  | B8G8R8A8Srgb
  | A2B10G10R10Unorm
  | A2B10G10R10Uint
  | R32G32Sint
  | R32G32Uint
  | R32G32Float
  | R16G16B16A16Float
  | R16G16B16A16Unorm
  | R16G16B16A16Snorm
  | R16G16B16A16Sint
  | R16G16B16A16Uint
  | R32G32B32A32Float
  | R32G32B32A32Sint
  | R32G32B32A32Uint
  | D16Unorm
  | D32Float
  | S8UintD24Unorm
  | D24UnormS8Uint
  | D32FloatS8Uint
deriving DecidableEq

/-- Guest color render-target format values, one constructor per case
label of the switch in GraphicsContext::SetColorRenderTargetFormat (the
FORMAT_..._CASE macros expanded); the guest enumeration itself is
declared in a header that is not among the provided sources, so every
enumeration value without a case label is represented by `Unlisted` with
its numeric code. -/
inductive MaxwellColorRtFormat where
  | None
  | R8Unorm
  | R8Snorm
  | R8Sint
  | R8Uint
  | R16Float
  | R16Unorm
  | R16Snorm
  | R16Sint
  | R16Uint
  | R8G8Unorm
  | R8G8Snorm
  | R8G8Sint
  | R8G8Uint
  | B5G6R5Unorm
  | B5G5R5A1Unorm
  | R32Float
  | R32Sint
  | R32Uint
  | B10G11R11Float
  | R16G16Float
  | R16G16Unorm
  | R16G16Snorm
  | R16G16Sint
  | R16G16Uint
  | R8G8B8A8Unorm
  | R8G8B8A8Srgb
  | R8G8B8X8Unorm
  | R8G8B8X8Snorm
  | R8G8B8X8Sint
  | R8G8B8X8Uint
  | R8G8B8X8Srgb
  | B8G8R8A8Unorm
  | B8G8R8A8Srgb
  | A2B10G10R10Unorm
  | A2B10G10R10Uint
  | R32G32Sint
  | R32G32Uint
  | R32G32Float
  | R16G16B16A16Float
  | R16G16B16X16Unorm
  | R16G16B16X16Snorm
  | R16G16B16X16Sint
  | R16G16B16X16Uint
  | R16G16B16X16Float
  | R32G32B32A32Float
  | R32G32B32X32Sint
  | R32G32B32X32Uint
  | R32G32B32X32Float
  | Unlisted (code : Nat)
deriving DecidableEq

/-- Guest depth render-target format values, one constructor per case
label of the switch in GraphicsContext::SetDepthRenderTargetFormat, with
`Unlisted` standing for every other value of the guest enumeration. -/
inductive MaxwellDepthRtFormat where
  | D16Unorm
  | D32Float
  | S8D24Unorm
  | D24S8Unorm
  | D32S8X24Float
  | Unlisted (code : Nat)
deriving DecidableEq

/-- TIC header types distinguished by the texture-header decoder in
GraphicsContext::GetPoolTextureView, with `Unsupported` standing for
every other value of the guest enumeration (declared outside the
provided sources). -/
inductive TicHeaderType where
  | Pitch
  | BlockLinear
  | Unsupported (code : Nat)
deriving DecidableEq

/-- Errors thrown by the translating operations. -/
inductive TranslateError where
  | unsupportedColorRt
  | unsupportedDepthRt
  | unsupportedTicHeader
deriving DecidableEq

/-- True exactly on color render-target format values outside the
translation table. -/
def MaxwellColorRtFormat.isUnlisted : MaxwellColorRtFormat → Bool
  | MaxwellColorRtFormat.Unlisted _ => true
  | _ => false

/-- True exactly on depth render-target format values outside the
translation table. -/
def MaxwellDepthRtFormat.isUnlisted : MaxwellDepthRtFormat → Bool
  | MaxwellDepthRtFormat.Unlisted _ => true
  | _ => false

/-- True exactly on TIC header types outside the decoder's table. -/
def TicHeaderType.isUnsupported : TicHeaderType → Bool
  | TicHeaderType.Unsupported _ => true
  | _ => false

/-- Embeds the format switch of
GraphicsContext::SetColorRenderTargetFormat: None yields the null format,
every listed value yields its host format, and any other value throws.
The result is the nullable texture::Format assigned to the render
target's guest descriptor, `none` standing for the null format. -/
def translateColorRtFormat :
    MaxwellColorRtFormat → Except TranslateError (Option SkFormat)
  | MaxwellColorRtFormat.None => Except.ok Option.none
  | MaxwellColorRtFormat.R8Unorm => Except.ok (some SkFormat.R8Unorm)
  | MaxwellColorRtFormat.R8Snorm => Except.ok (some SkFormat.R8Snorm)
  | MaxwellColorRtFormat.R8Sint => Except.ok (some SkFormat.R8Sint)
  | MaxwellColorRtFormat.R8Uint => Except.ok (some SkFormat.R8Uint)
  | MaxwellColorRtFormat.R16Float => Except.ok (some SkFormat.R16Float)
  | MaxwellColorRtFormat.R16Unorm => Except.ok (some SkFormat.R16Unorm)
  | MaxwellColorRtFormat.R16Snorm => Except.ok (some SkFormat.R16Snorm)
  | MaxwellColorRtFormat.R16Sint => Except.ok (some SkFormat.R16Sint)
  | MaxwellColorRtFormat.R16Uint => Except.ok (some SkFormat.R16Uint)
  | MaxwellColorRtFormat.R8G8Unorm => Except.ok (some SkFormat.R8G8Unorm)
  | MaxwellColorRtFormat.R8G8Snorm => Except.ok (some SkFormat.R8G8Snorm)
  | MaxwellColorRtFormat.R8G8Sint => Except.ok (some SkFormat.R8G8Sint)
  | MaxwellColorRtFormat.R8G8Uint => Except.ok (some SkFormat.R8G8Uint)
  | MaxwellColorRtFormat.B5G6R5Unorm => Except.ok (some SkFormat.B5G6R5Unorm)
  | MaxwellColorRtFormat.B5G5R5A1Unorm => Except.ok (some SkFormat.B5G5R5A1Unorm)
  | MaxwellColorRtFormat.R32Float => Except.ok (some SkFormat.R32Float)
  | MaxwellColorRtFormat.R32Sint => Except.ok (some SkFormat.R32Sint)
  | MaxwellColorRtFormat.R32Uint => Except.ok (some SkFormat.R32Uint)
  | MaxwellColorRtFormat.B10G11R11Float => Except.ok (some SkFormat.B10G11R11Float)
  | MaxwellColorRtFormat.R16G16Float => Except.ok (some SkFormat.R16G16Float)
  | MaxwellColorRtFormat.R16G16Unorm => Except.ok (some SkFormat.R16G16Unorm)
  | MaxwellColorRtFormat.R16G16Snorm => Except.ok (some SkFormat.R16G16Snorm)
  | MaxwellColorRtFormat.R16G16Sint => Except.ok (some SkFormat.R16G16Sint)
  | MaxwellColorRtFormat.R16G16Uint => Except.ok (some SkFormat.R16G16Uint)
  | MaxwellColorRtFormat.R8G8B8A8Unorm => Except.ok (some SkFormat.R8G8B8A8Unorm)
  | MaxwellColorRtFormat.R8G8B8A8Srgb => Except.ok (some SkFormat.R8G8B8A8Srgb)
  | MaxwellColorRtFormat.R8G8B8X8Unorm => Except.ok (some SkFormat.R8G8B8A8Unorm)
  | MaxwellColorRtFormat.R8G8B8X8Snorm => Except.ok (some SkFormat.R8G8B8A8Snorm)
  | MaxwellColorRtFormat.R8G8B8X8Sint => Except.ok (some SkFormat.R8G8B8A8Sint)
  | MaxwellColorRtFormat.R8G8B8X8Uint => Except.ok (some SkFormat.R8G8B8A8Uint)
  | MaxwellColorRtFormat.R8G8B8X8Srgb => Except.ok (some SkFormat.R8G8B8A8Srgb)
  | MaxwellColorRtFormat.B8G8R8A8Unorm => Except.ok (some SkFormat.B8G8R8A8Unorm)
  | MaxwellColorRtFormat.B8G8R8A8Srgb => Except.ok (some SkFormat.B8G8R8A8Srgb)
  | MaxwellColorRtFormat.A2B10G10R10Unorm => Except.ok (some SkFormat.A2B10G10R10Unorm)
  | MaxwellColorRtFormat.A2B10G10R10Uint => Except.ok (some SkFormat.A2B10G10R10Uint)
  | MaxwellColorRtFormat.R32G32Sint => Except.ok (some SkFormat.R32G32Sint)
  | MaxwellColorRtFormat.R32G32Uint => Except.ok (some SkFormat.R32G32Uint)
  | MaxwellColorRtFormat.R32G32Float => Except.ok (some SkFormat.R32G32Float)
  | MaxwellColorRtFormat.R16G16B16A16Float => Except.ok (some SkFormat.R16G16B16A16Float)
  | MaxwellColorRtFormat.R16G16B16X16Unorm => Except.ok (some SkFormat.R16G16B16A16Unorm)
  | MaxwellColorRtFormat.R16G16B16X16Snorm => Except.ok (some SkFormat.R16G16B16A16Snorm)
  | MaxwellColorRtFormat.R16G16B16X16Sint => Except.ok (some SkFormat.R16G16B16A16Sint)
  | MaxwellColorRtFormat.R16G16B16X16Uint => Except.ok (some SkFormat.R16G16B16A16Uint)
  | MaxwellColorRtFormat.R16G16B16X16Float => Except.ok (some SkFormat.R16G16B16A16Float)
  | MaxwellColorRtFormat.R32G32B32A32Float => Except.ok (some SkFormat.R32G32B32A32Float)
  | MaxwellColorRtFormat.R32G32B32X32Sint => Except.ok (some SkFormat.R32G32B32A32Sint)
  | MaxwellColorRtFormat.R32G32B32X32Uint => Except.ok (some SkFormat.R32G32B32A32Uint)
  | MaxwellColorRtFormat.R32G32B32X32Float => Except.ok (some SkFormat.R32G32B32A32Float)
  | MaxwellColorRtFormat.Unlisted _ => Except.error TranslateError.unsupportedColorRt

/-- Embeds the format switch of
GraphicsContext::SetDepthRenderTargetFormat: every listed value yields
its host format and any other value throws. -/
def translateDepthRtFormat :
    MaxwellDepthRtFormat → Except TranslateError SkFormat
  | MaxwellDepthRtFormat.D16Unorm => Except.ok SkFormat.D16Unorm
  | MaxwellDepthRtFormat.D32Float => Except.ok SkFormat.D32Float
  | MaxwellDepthRtFormat.S8D24Unorm => Except.ok SkFormat.S8UintD24Unorm
  | MaxwellDepthRtFormat.D24S8Unorm => Except.ok SkFormat.D24UnormS8Uint
  | MaxwellDepthRtFormat.D32S8X24Float => Except.ok SkFormat.D32FloatS8Uint
  | MaxwellDepthRtFormat.Unlisted _ => Except.error TranslateError.unsupportedDepthRt

/-- Embeds the TIC header-type decoding in
GraphicsContext::GetPoolTextureView: a Pitch header builds a Pitch tile
configuration from the pitch bits shifted by the pitch alignment (the
alignment constant is declared outside the provided sources and passed
in), a BlockLinear header builds a Block configuration from the
log2 GOB counts cast to u8, and any other header type throws. The union
members not selected by the mode are left zero. -/
def decodeTicTileConfig (headerType : TicHeaderType)
    (pitchAlignmentBits pitchHigh tileHeightGobsLog2 tileDepthGobsLog2 : Nat) :
    Except TranslateError TileConfig :=
  match headerType with
  | TicHeaderType.Pitch =>
    Except.ok ⟨TileMode.Pitch, 0, 0, pitchHigh <<< pitchAlignmentBits⟩
  | TicHeaderType.BlockLinear =>
    Except.ok ⟨TileMode.Block, (1 <<< tileHeightGobsLog2) % 256,
      (1 <<< tileDepthGobsLog2) % 256, 0⟩
  | TicHeaderType.Unsupported _ =>
    Except.error TranslateError.unsupportedTicHeader

/-- C8: a guest format value with no host equivalent is a hard failure:
each translating operation (color render-target format, depth
render-target format, TIC header type decoding) throws exactly on values
outside its translation table and returns a host result without throwing
on every listed value; renamed entries map to their corresponding host
formats (samples shown for the X-component renames and the depth
reordering). -/
theorem format_translation_total :
    (∀ f : MaxwellColorRtFormat,
      (∃ r, translateColorRtFormat f = Except.ok r) ↔ f.isUnlisted = false) ∧
    (∀ f : MaxwellDepthRtFormat,
      (∃ r, translateDepthRtFormat f = Except.ok r) ↔ f.isUnlisted = false) ∧
    (∀ ht pab ph thg tdg,
      (∃ tc, decodeTicTileConfig ht pab ph thg tdg = Except.ok tc) ↔
        ht.isUnsupported = false) ∧
    (∀ c, translateColorRtFormat (MaxwellColorRtFormat.Unlisted c) =
      Except.error TranslateError.unsupportedColorRt) ∧
    (∀ c, translateDepthRtFormat (MaxwellDepthRtFormat.Unlisted c) =
      Except.error TranslateError.unsupportedDepthRt) ∧
    translateColorRtFormat MaxwellColorRtFormat.R8G8B8X8Srgb =
      Except.ok (some SkFormat.R8G8B8A8Srgb) ∧
    translateDepthRtFormat MaxwellDepthRtFormat.D32S8X24Float =
      Except.ok SkFormat.D32FloatS8Uint := by
  refine ⟨fun f => ?_, fun f => ?_, fun ht pab ph thg tdg => ?_,
    fun c => rfl, fun c => rfl, rfl, rfl⟩
  · cases f <;>
      simp [translateColorRtFormat, MaxwellColorRtFormat.isUnlisted]
  · cases f <;>
      simp [translateDepthRtFormat, MaxwellDepthRtFormat.isUnlisted]
  · cases ht <;>
      simp [decodeTicTileConfig, TicHeaderType.isUnsupported]

end skyline
